import Mathlib

/-!
Verification development for the hiking-routes-manager repository.

The repository is a TypeScript/Next.js application.  Its core, per the
specification, is the route data model together with its
normalization/transformation layer:

- the key normalizer for the ambiguous average-daily-distance entries,
  function normalizeAvgDailyDistance in src/app/api/route/[id]/route.ts
  (and identically in src/app/api/route/route.ts), and the reverse
  transform transformedAvgDaily inside RouteFormUpdate.onSubmit in
  src/app/components/Navbar.tsx;
- the zod schema routeSchema in src/app/components/Navbar.tsx;
- the POST and PUT API handlers in src/app/api/route/route.ts and
  src/app/api/route/[id]/route.ts, over an abstract route store.

JSON/JavaScript values are embedded as the inductive type JVal below.
JavaScript objects are embedded as association lists with distinct keys in
insertion order; none of the keys used by this code base is an integer-like
string, so JavaScript Object.keys order coincides with insertion order.
JavaScript numbers are modelled as exact rationals (the concrete values the
program manipulates are small decimals, where the two coincide).
-/

/-- A JSON/JavaScript value.  The constructor undef stands for the
JavaScript value undefined, which property access on an object returns for
a missing key. -/
inductive JVal where
  | null
  | undef
  | bool (b : Bool)
  | num (q : ℚ)
  | str (s : String)
  | arr (elems : List JVal)
  | obj (fields : List (String × JVal))

/-- A JavaScript object viewed as an association list of fields in
insertion order, keys distinct. -/
abbrev JRecord := List (String × JVal)

/-- Property access on an object: a missing key yields undefined. -/
def jGet (r : JRecord) (k : String) : JVal :=
  (r.lookup k).getD JVal.undef

/-- The typeof-string test of the source: some s when the value is a
string, none otherwise. -/
def isStr : JVal → Option String
  | JVal.str s => some s
  | _ => none

/-- JavaScript truthiness of a value (no NaN in this model). -/
def jsTruthy : JVal → Bool
  | JVal.null => false
  | JVal.undef => false
  | JVal.bool b => b
  | JVal.num q => decide (q ≠ 0)
  | JVal.str s => decide (s ≠ "")
  | JVal.arr _ => true
  | JVal.obj _ => true

/-- The JavaScript operator a short-circuit-or b on values. -/
def jsOrV (a b : JVal) : JVal :=
  if jsTruthy a then a else b

/-- The JavaScript operator a short-circuit-or b restricted to
string-or-null operands, as used for label resolution: null and the empty
string are falsy. -/
def jsOrS (a b : Option String) : Option String :=
  match a with
  | some s => if s = "" then b else some s
  | none => b

/-- The JavaScript nullish coalescing operator a question-question b:
null and undefined fall through to the default. -/
def jsNullish (v d : JVal) : JVal :=
  match v with
  | JVal.null => d
  | JVal.undef => d
  | _ => v

/-- The dynamic legacy key avg_daily_distance_n. -/
def dynKey (n : Nat) : String :=
  "avg_daily_distance_" ++ toString n

/-- The startsWith test of JavaScript strings, via character lists so that
it reduces definitionally. -/
def strStartsWith (s p : String) : Bool :=
  p.toList.isPrefixOf s.toList

/-! ## Inbound key normalizer

Embeds normalizeAvgDailyDistance from src/app/api/route/[id]/route.ts
lines 7-36 (the copy in src/app/api/route/route.ts lines 123-152 is
textually identical). -/

/-- Label resolution of one entry, lines 16-28 of the source:
directLabel short-circuit-or rangeValue short-circuit-or dynamicLabel
short-circuit-or empty string, where directLabel and rangeValue are the
label and range_value fields when they are strings, and dynamicLabel is
the value of the first key starting with avg_daily_distance_ when that
value is a string.  The source guard on dynamicKey being a nonempty string
is automatic here since a found key starts with the nonempty prefix. -/
def resolveLabel (r : JRecord) : String :=
  let directLabel := isStr (jGet r "label")
  let rangeValue := isStr (jGet r "range_value")
  let dynamicKey := (r.map Prod.fst).find? (fun k => strStartsWith k "avg_daily_distance_")
  let dynamicLabel :=
    match dynamicKey with
    | some k => isStr (jGet r k)
    | none => none
  (jsOrS directLabel (jsOrS rangeValue dynamicLabel)).getD ""

/-- One entry of the normalizer output, lines 27-34 of the source: the
resolved label plus the five recognized numeric fields passed through. -/
def normalizeEntry (r : JRecord) : JRecord :=
  [("label", JVal.str (resolveLabel r)),
   ("minimum_km", jGet r "minimum_km"),
   ("minimum_mile", jGet r "minimum_mile"),
   ("maximum_km", jGet r "maximum_km"),
   ("maximum_mile", jGet r "maximum_mile"),
   ("days", jGet r "days")]

/-- normalizeAvgDailyDistance over a list of entry records.  The source
returns the empty list for a non-array input and maps normalizeEntry over
the elements. -/
def normalizeAvgDailyDistance (items : List JRecord) : List JRecord :=
  items.map normalizeEntry

/-- The label resolution rule as the amended specification words it: the
first non-empty string among the label field, the range_value field, and
the value of the first key starting with avg_daily_distance_; otherwise
the empty string. -/
def nonEmptyStr (v : JVal) : Option String :=
  match v with
  | JVal.str s => if s = "" then none else some s
  | _ => none

/-- Specification-side restatement of label resolution, written from the
amended claim text, to be compared with resolveLabel. -/
def specResolveLabel (r : JRecord) : String :=
  (Option.orElse (nonEmptyStr (jGet r "label")) (fun _ =>
    Option.orElse (nonEmptyStr (jGet r "range_value")) (fun _ =>
      Option.bind ((r.map Prod.fst).find? (fun k => strStartsWith k "avg_daily_distance_"))
        (fun k => nonEmptyStr (jGet r k))))).getD ""

/-! ## Outbound transform (denormalizer)

Embeds the transformedAvgDaily mapping inside RouteFormUpdate.onSubmit,
src/app/components/Navbar.tsx lines 799-818. -/

/-- The value emitted for entry number idx (0-based), lines 801-804 of the
source: item range_value short-circuit-or item avg_daily_distance_(idx+1)
short-circuit-or empty string.  The item itself is an object, hence
truthy, so the two item-guards of the source are dropped. -/
def denormValue (idx : Nat) (item : JRecord) : JVal :=
  jsOrV (jGet item "range_value")
    (jsOrV (jGet item (dynKey (idx + 1))) (JVal.str ""))

/-- One output entry, lines 805-816 of the source: the positional dynamic
key first, then every original field whose key neither starts with
avg_daily_distance_ nor is range_value, in order. -/
def transformEntry (idx : Nat) (item : JRecord) : JRecord :=
  (dynKey (idx + 1), denormValue idx item) ::
    item.filter (fun kv =>
      !(strStartsWith kv.1 "avg_daily_distance_") && kv.1 != "range_value")

/-- Index-passing recursion equivalent to the indexed map of the source. -/
def transformedAvgDailyAux (idx : Nat) : List JRecord → List JRecord
  | [] => []
  | it :: rest => transformEntry idx it :: transformedAvgDailyAux (idx + 1) rest

/-- transformedAvgDaily: the indexed map of transformEntry over the
sequence. -/
def transformedAvgDaily (items : List JRecord) : List JRecord :=
  transformedAvgDailyAux 0 items

/-- An already-canonical distance-band entry: one label string plus the
five recognized numeric fields. -/
structure CanonEntry where
  label : String
  minimum_km : ℚ
  minimum_mile : ℚ
  maximum_km : ℚ
  maximum_mile : ℚ
  days : ℚ

/-- The record form of a canonical entry, in the field order the
normalizer emits. -/
def canonRecord (e : CanonEntry) : JRecord :=
  [("label", JVal.str e.label),
   ("minimum_km", JVal.num e.minimum_km),
   ("minimum_mile", JVal.num e.minimum_mile),
   ("maximum_km", JVal.num e.maximum_km),
   ("maximum_mile", JVal.num e.maximum_mile),
   ("days", JVal.num e.days)]

/-! ## JavaScript numeric coercion

The zod schema uses z.coerce.number(), which applies the JavaScript
Number() conversion before checking for a number.  jsNumber models
Number() on strings for the decimal literal forms (optional surrounding
whitespace, optional sign, digits with optional fraction, optional
exponent; the empty or all-whitespace string converts to 0).  Hexadecimal,
octal, binary and Infinity forms are not modelled; the universal theorems
below therefore restrict the alphabet of the quantified string to the
decimal forms, where this model and JavaScript agree.  A none result
stands for NaN. -/

/-- Decimal digits to a natural number. -/
def digitsToNat (ds : List Char) : Nat :=
  ds.foldl (fun a c => a * 10 + (c.toNat - 48)) 0

/-- The Number() conversion of a string, none for NaN.  The value is
assembled with mkRat from the integer-and-fraction digits and the net
decimal exponent. -/
def jsNumber (s : String) : Option ℚ :=
  let cs0 := s.toList
  let cs := ((cs0.dropWhile Char.isWhitespace).reverse.dropWhile Char.isWhitespace).reverse
  if cs.isEmpty then some 0 else
  let sgnAnd :=
    match cs with
    | '+' :: t => ((1 : Int), t)
    | '-' :: t => ((-1 : Int), t)
    | _ => ((1 : Int), cs)
  let sgn := sgnAnd.1
  let cs1 := sgnAnd.2
  let ip := cs1.takeWhile Char.isDigit
  let cs2 := cs1.dropWhile Char.isDigit
  let fpAnd :=
    match cs2 with
    | '.' :: t => (t.takeWhile Char.isDigit, t.dropWhile Char.isDigit)
    | _ => (([] : List Char), cs2)
  let fp := fpAnd.1
  let cs3 := fpAnd.2
  if ip.isEmpty && fp.isEmpty then none else
  let n : Int := sgn * (digitsToNat (ip ++ fp) : Int)
  let f : Nat := fp.length
  let mkVal : Int → Option ℚ := fun e =>
    let e2 : Int := e - (f : Int)
    if 0 ≤ e2 then some (mkRat (n * (10 : Int) ^ e2.toNat) 1)
    else some (mkRat n ((10 : Nat) ^ (-e2).toNat))
  match cs3 with
  | [] => mkVal 0
  | c :: t =>
    if c = 'e' || c = 'E' then
      let esgnAnd :=
        match t with
        | '+' :: u => ((1 : Int), u)
        | '-' :: u => ((-1 : Int), u)
        | _ => ((1 : Int), t)
      let esgn := esgnAnd.1
      let t1 := esgnAnd.2
      let ed := t1.takeWhile Char.isDigit
      let t2 := t1.dropWhile Char.isDigit
      if ed.isEmpty || !t2.isEmpty then none
      else mkVal (esgn * (digitsToNat ed : Int))
    else none

/-- The Number() conversion applied to a value, as z.coerce.number() does.
On arrays and objects JavaScript goes through toPrimitive; those cases are
not exercised by any claim and are modelled as NaN. -/
def coerceNumber (v : JVal) : Option ℚ :=
  match v with
  | JVal.num q => some q
  | JVal.str s => jsNumber s
  | JVal.bool b => some (if b then 1 else 0)
  | JVal.null => some 0
  | JVal.undef => none
  | JVal.arr _ => none
  | JVal.obj _ => none

/-! ## Schema validator

Embeds routeSchema, src/app/components/Navbar.tsx lines 635-699 (zod).
Validation collects every issue; an issue carries the path of the
offending field.  Messages follow the schema where it gives custom ones. -/

/-- One step of a zod issue path: an object key or an array index. -/
inductive PathItem where
  | key (s : String)
  | idx (n : Nat)
deriving DecidableEq

/-- A field-level validation issue: path plus message. -/
structure VErr where
  path : List PathItem
  msg : String
deriving DecidableEq

/-- Validation result: the typed value, or every issue found. -/
abbrev Vres (α : Type) := Except (List VErr) α

/-- Applicative combination that keeps collecting issues from both sides,
as zod does across sibling fields. -/
def vseq {α β : Type} : Vres (α → β) → Vres α → Vres β
  | Except.ok f, Except.ok a => Except.ok (f a)
  | Except.ok _, Except.error e => Except.error e
  | Except.error e, Except.ok _ => Except.error e
  | Except.error e1, Except.error e2 => Except.error (e1 ++ e2)

/-- z.string(): a missing field is reported as Required, a wrongly typed
one as a type issue. -/
def vStr (p : List PathItem) (v : JVal) : Vres String :=
  match v with
  | JVal.str s => Except.ok s
  | JVal.undef => Except.error [⟨p, "Required"⟩]
  | _ => Except.error [⟨p, "Expected string"⟩]

/-- z.string().min(1, msg). -/
def vStrMin1 (p : List PathItem) (msg : String) (v : JVal) : Vres String :=
  match vStr p v with
  | Except.ok s => if s.length < 1 then Except.error [⟨p, msg⟩] else Except.ok s
  | Except.error e => Except.error e

/-- z.string().optional(). -/
def vStrOpt (p : List PathItem) (v : JVal) : Vres (Option String) :=
  match v with
  | JVal.undef => Except.ok none
  | JVal.str s => Except.ok (some s)
  | _ => Except.error [⟨p, "Expected string"⟩]

/-- z.coerce.number(): Number() conversion, then the NaN check. -/
def vNum (p : List PathItem) (v : JVal) : Vres ℚ :=
  match coerceNumber v with
  | some q => Except.ok q
  | none => Except.error [⟨p, "Expected number, received nan"⟩]

/-- z.coerce.number().min(m). -/
def vNumMin (p : List PathItem) (m : ℚ) (v : JVal) : Vres ℚ :=
  match vNum p v with
  | Except.ok q =>
      if q < m then Except.error [⟨p, "Too small"⟩] else Except.ok q
  | Except.error e => Except.error e

/-- z.coerce.number().optional(): a missing field passes through before
any coercion happens. -/
def vNumOpt (p : List PathItem) (v : JVal) : Vres (Option ℚ) :=
  match v with
  | JVal.undef => Except.ok none
  | _ => (vNum p v).map some

/-- Element-wise validation of an array, indices in the path, collecting
issues from every element. -/
def vArrayAux {α : Type} (f : List PathItem → JVal → Vres α)
    (p : List PathItem) (i : Nat) : List JVal → Vres (List α)
  | [] => Except.ok []
  | x :: xs =>
      vseq (vseq (Except.ok List.cons) (f (p ++ [PathItem.idx i]) x))
        (vArrayAux f p (i + 1) xs)

/-- z.array(inner). -/
def vArray {α : Type} (f : List PathItem → JVal → Vres α)
    (p : List PathItem) (v : JVal) : Vres (List α) :=
  match v with
  | JVal.arr xs => vArrayAux f p 0 xs
  | JVal.undef => Except.error [⟨p, "Required"⟩]
  | _ => Except.error [⟨p, "Expected array"⟩]

/-- z.array(inner).optional(). -/
def vArrayOpt {α : Type} (f : List PathItem → JVal → Vres α)
    (p : List PathItem) (v : JVal) : Vres (Option (List α)) :=
  match v with
  | JVal.undef => Except.ok none
  | _ => (vArray f p v).map some

/-- z.array(z.string()). -/
def vStrList (p : List PathItem) (v : JVal) : Vres (List String) :=
  vArray vStr p v

/-- Validated form value of one distance band (schema lines 639-650). -/
structure DistBandForm where
  range_value : Option String
  minimum_km : Option ℚ
  minimum_mile : Option ℚ
  maximum_km : Option ℚ
  maximum_mile : Option ℚ
  days : Option ℚ
deriving DecidableEq

/-- Validated form value of one starting point (schema lines 652-660). -/
structure StartPointForm where
  name : Option String
  avg_distance : Option String
  avg_daily : Option String
deriving DecidableEq

/-- Validated form value of stage details (schema lines 669-678). -/
structure DetailsForm where
  total_distance : String
  total_time : String
  accumulated_ascent : String
  accumulated_descent : String
  walking_surface : List String
  elevation_profile : String
  challenges : List String
  highlights : List String
deriving DecidableEq

/-- Validated form value of one facility (schema lines 679-686). -/
structure FacilityForm where
  index : ℚ
  name : Option String
  distance : Option String
  services : List String
deriving DecidableEq

/-- Validated form value of one accommodation (schema lines 687-696). -/
structure AccommodationForm where
  name : String
  price_category : String
  contact_url : Option String
  contact_phone : Option String
  lat : Option ℚ
  long : Option ℚ
deriving DecidableEq

/-- Validated form value of one stage (schema lines 661-698). -/
structure StageForm where
  stage_number : ℚ
  stage_name : String
  distance_km : ℚ
  distance_miles : ℚ
  gpx : Option String
  details : DetailsForm
  facilities : List FacilityForm
  accommodations : List AccommodationForm
deriving DecidableEq

/-- Validated form value of a route, z.infer of routeSchema. -/
structure RouteFormValues where
  route_id : String
  route_name : String
  avg_daily_distance : Option (List DistBandForm)
  starting_point : Option (List StartPointForm)
  stages : List StageForm
deriving DecidableEq

/-- Validator of one distance-band object of the schema. -/
def vDistBand (p : List PathItem) (v : JVal) : Vres DistBandForm :=
  match v with
  | JVal.obj fs =>
      vseq (vseq (vseq (vseq (vseq (vseq (Except.ok DistBandForm.mk)
        (vStrOpt (p ++ [PathItem.key "range_value"]) (jGet fs "range_value")))
        (vNumOpt (p ++ [PathItem.key "minimum_km"]) (jGet fs "minimum_km")))
        (vNumOpt (p ++ [PathItem.key "minimum_mile"]) (jGet fs "minimum_mile")))
        (vNumOpt (p ++ [PathItem.key "maximum_km"]) (jGet fs "maximum_km")))
        (vNumOpt (p ++ [PathItem.key "maximum_mile"]) (jGet fs "maximum_mile")))
        (vNumOpt (p ++ [PathItem.key "days"]) (jGet fs "days"))
  | JVal.undef => Except.error [⟨p, "Required"⟩]
  | _ => Except.error [⟨p, "Expected object"⟩]

/-- Validator of one starting-point object of the schema. -/
def vStartPoint (p : List PathItem) (v : JVal) : Vres StartPointForm :=
  match v with
  | JVal.obj fs =>
      vseq (vseq (vseq (Except.ok StartPointForm.mk)
        (vStrOpt (p ++ [PathItem.key "name"]) (jGet fs "name")))
        (vStrOpt (p ++ [PathItem.key "avg_distance"]) (jGet fs "avg_distance")))
        (vStrOpt (p ++ [PathItem.key "avg_daily"]) (jGet fs "avg_daily"))
  | JVal.undef => Except.error [⟨p, "Required"⟩]
  | _ => Except.error [⟨p, "Expected object"⟩]

/-- Validator of the details object of the schema: four string metrics and
elevation_profile required but may be empty, three string arrays. -/
def vDetails (p : List PathItem) (v : JVal) : Vres DetailsForm :=
  match v with
  | JVal.obj fs =>
      vseq (vseq (vseq (vseq (vseq (vseq (vseq (vseq (Except.ok DetailsForm.mk)
        (vStr (p ++ [PathItem.key "total_distance"]) (jGet fs "total_distance")))
        (vStr (p ++ [PathItem.key "total_time"]) (jGet fs "total_time")))
        (vStr (p ++ [PathItem.key "accumulated_ascent"]) (jGet fs "accumulated_ascent")))
        (vStr (p ++ [PathItem.key "accumulated_descent"]) (jGet fs "accumulated_descent")))
        (vStrList (p ++ [PathItem.key "walking_surface"]) (jGet fs "walking_surface")))
        (vStr (p ++ [PathItem.key "elevation_profile"]) (jGet fs "elevation_profile")))
        (vStrList (p ++ [PathItem.key "challenges"]) (jGet fs "challenges")))
        (vStrList (p ++ [PathItem.key "highlights"]) (jGet fs "highlights"))
  | JVal.undef => Except.error [⟨p, "Required"⟩]
  | _ => Except.error [⟨p, "Expected object"⟩]

/-- Validator of one facility object of the schema. -/
def vFacility (p : List PathItem) (v : JVal) : Vres FacilityForm :=
  match v with
  | JVal.obj fs =>
      vseq (vseq (vseq (vseq (Except.ok FacilityForm.mk)
        (vNum (p ++ [PathItem.key "index"]) (jGet fs "index")))
        (vStrOpt (p ++ [PathItem.key "name"]) (jGet fs "name")))
        (vStrOpt (p ++ [PathItem.key "distance"]) (jGet fs "distance")))
        (vStrList (p ++ [PathItem.key "services"]) (jGet fs "services"))
  | JVal.undef => Except.error [⟨p, "Required"⟩]
  | _ => Except.error [⟨p, "Expected object"⟩]

/-- Validator of one accommodation object of the schema. -/
def vAccommodation (p : List PathItem) (v : JVal) : Vres AccommodationForm :=
  match v with
  | JVal.obj fs =>
      vseq (vseq (vseq (vseq (vseq (vseq (Except.ok AccommodationForm.mk)
        (vStr (p ++ [PathItem.key "name"]) (jGet fs "name")))
        (vStr (p ++ [PathItem.key "price_category"]) (jGet fs "price_category")))
        (vStrOpt (p ++ [PathItem.key "contact_url"]) (jGet fs "contact_url")))
        (vStrOpt (p ++ [PathItem.key "contact_phone"]) (jGet fs "contact_phone")))
        (vNumOpt (p ++ [PathItem.key "lat"]) (jGet fs "lat")))
        (vNumOpt (p ++ [PathItem.key "long"]) (jGet fs "long"))
  | JVal.undef => Except.error [⟨p, "Required"⟩]
  | _ => Except.error [⟨p, "Expected object"⟩]

/-- Validator of one stage object of the schema: stage_number coerces and
must be at least 1, stage_name must be non-empty, distances coerce,
details is required, facilities and accommodations are arrays. -/
def vStage (p : List PathItem) (v : JVal) : Vres StageForm :=
  match v with
  | JVal.obj fs =>
      vseq (vseq (vseq (vseq (vseq (vseq (vseq (vseq (Except.ok StageForm.mk)
        (vNumMin (p ++ [PathItem.key "stage_number"]) 1 (jGet fs "stage_number")))
        (vStrMin1 (p ++ [PathItem.key "stage_name"]) "Stage Name is required" (jGet fs "stage_name")))
        (vNum (p ++ [PathItem.key "distance_km"]) (jGet fs "distance_km")))
        (vNum (p ++ [PathItem.key "distance_miles"]) (jGet fs "distance_miles")))
        (vStrOpt (p ++ [PathItem.key "gpx"]) (jGet fs "gpx")))
        (vDetails (p ++ [PathItem.key "details"]) (jGet fs "details")))
        (vArray vFacility (p ++ [PathItem.key "facilities"]) (jGet fs "facilities")))
        (vArray vAccommodation (p ++ [PathItem.key "accommodations"]) (jGet fs "accommodations"))
  | JVal.undef => Except.error [⟨p, "Required"⟩]
  | _ => Except.error [⟨p, "Expected object"⟩]

/-- The routeSchema validator over an input document. -/
def validateRoute (v : JVal) : Vres RouteFormValues :=
  match v with
  | JVal.obj fs =>
      vseq (vseq (vseq (vseq (vseq (Except.ok RouteFormValues.mk)
        (vStrMin1 [PathItem.key "route_id"] "Route ID is required" (jGet fs "route_id")))
        (vStrMin1 [PathItem.key "route_name"] "Route Name is required" (jGet fs "route_name")))
        (vArrayOpt vDistBand [PathItem.key "avg_daily_distance"] (jGet fs "avg_daily_distance")))
        (vArrayOpt vStartPoint [PathItem.key "starting_point"] (jGet fs "starting_point")))
        (vArray vStage [PathItem.key "stages"] (jGet fs "stages"))
  | JVal.undef => Except.error [⟨([] : List PathItem), "Required"⟩]
  | _ => Except.error [⟨([] : List PathItem), "Expected object"⟩]

/-! ## Concrete documents used by the validator claims -/

/-- A details object with every required field present and empty. -/
def okDetailsJ : JVal :=
  JVal.obj
    [("total_distance", JVal.str ""),
     ("total_time", JVal.str ""),
     ("accumulated_ascent", JVal.str ""),
     ("accumulated_descent", JVal.str ""),
     ("walking_surface", JVal.arr []),
     ("elevation_profile", JVal.str ""),
     ("challenges", JVal.arr []),
     ("highlights", JVal.arr [])]

/-- A stage document with the given stage_number and distance_km values,
every other field valid. -/
def stageDoc (n d : JVal) : JVal :=
  JVal.obj
    [("stage_number", n),
     ("stage_name", JVal.str "S"),
     ("distance_km", d),
     ("distance_miles", JVal.num 0),
     ("details", okDetailsJ),
     ("facilities", JVal.arr []),
     ("accommodations", JVal.arr [])]

/-- A route document holding one given stage. -/
def routeDocWith (stage : JVal) : JVal :=
  JVal.obj
    [("route_id", JVal.str "r1"),
     ("route_name", JVal.str "R"),
     ("stages", JVal.arr [stage])]

/-- A stage document whose details field is missing entirely. -/
def stageNoDetails : JVal :=
  JVal.obj
    [("stage_number", JVal.num 1),
     ("stage_name", JVal.str "S"),
     ("distance_km", JVal.num 1),
     ("distance_miles", JVal.num 0),
     ("facilities", JVal.arr []),
     ("accommodations", JVal.arr [])]

/-- The route document with empty route_id from the claim. -/
def routeEmptyIdDoc : JVal :=
  JVal.obj
    [("route_id", JVal.str ""),
     ("route_name", JVal.str "X"),
     ("stages", JVal.arr [])]

/-! ## API handlers

Embeds the POST handler of src/app/api/route/route.ts lines 212-401 and
the PUT handler of src/app/api/route/[id]/route.ts lines 105-243, over an
abstract route store (the Prisma repository is the external collaborator;
updateMany applies the full data object to every record whose routeId
matches and reports the match count, create appends a record).

The typed incoming-route structures below mirror the IncomingRoute,
StageIn, FacilityIn and AccommodationIn types the handlers declare; an
Option field stands for present-or-nullish, since the handlers read every
such field through the nullish-coalescing operator. -/

/-- FacilityIn of the handlers. -/
structure FacilityIn where
  index : Option ℚ
  name : Option String
  distance : Option String
  services : Option (List String)

/-- AccommodationIn of the handlers. -/
structure AccommodationIn where
  name : Option String
  price_category : Option String
  contact_url : Option String
  contact_phone : Option String
  lat : Option ℚ
  long : Option ℚ

/-- The details member of StageIn.  The four metric fields and
elevation_profile are read with a default of the empty string but are not
otherwise inspected, so they stay untyped values here. -/
structure DetailsIn where
  total_distance : JVal
  total_time : JVal
  accumulated_ascent : JVal
  accumulated_descent : JVal
  walking_surface : Option (List String)
  elevation_profile : JVal
  challenges : Option (List String)
  highlights : Option (List String)

/-- StageIn of the handlers. -/
structure StageIn where
  stage_number : Option ℚ
  stage_name : Option String
  distance_km : Option ℚ
  distance_miles : Option ℚ
  gpx : Option String
  details : Option DetailsIn
  facilities : List FacilityIn
  accommodations : List AccommodationIn

/-- IncomingRoute of the handlers.  The two route-level sequences are
passed through verbatim, with the empty list replacing a missing one. -/
structure IncomingRoute where
  route_id : Option String
  route_name : Option String
  stages : List StageIn
  avg_daily_distance : List JVal
  starting_point : List JVal

/-- Stored facility record (camelCase side). -/
structure StoredFacility where
  index : ℚ
  name : String
  distance : String
  services : List String

/-- Stored accommodation record. -/
structure StoredAccommodation where
  name : String
  priceCategory : String
  contactUrl : Option String
  contactPhone : Option String
  lat : Option ℚ
  long : Option ℚ

/-- Stored stage details record. -/
structure StoredDetails where
  totalDistance : JVal
  totalTime : JVal
  accumulatedAscent : JVal
  accumulatedDescent : JVal
  walkingSurface : List String
  elevationProfile : JVal
  challenges : List String
  highlights : List String

/-- Stored stage record. -/
structure StoredStage where
  stageNumber : ℚ
  stageName : String
  distanceKm : ℚ
  distanceMiles : ℚ
  gpx : String
  details : StoredDetails
  facilities : List StoredFacility
  accommodations : List StoredAccommodation

/-- Stored route record. -/
structure StoredRoute where
  routeId : String
  routeName : String
  avgDailyDistance : List JVal
  startingPoint : List JVal
  stages : List StoredStage

/-- The abstract route store. -/
abbrev RouteStore := List StoredRoute

/-- Read a details field with the empty-string default, through the
optional chaining plus nullish coalescing of the source. -/
def dget (o : Option DetailsIn) (f : DetailsIn → JVal) : JVal :=
  match o with
  | some d => jsNullish (f d) (JVal.str "")
  | none => JVal.str ""

/-- Read a details list field with the empty-list default. -/
def dgetL (o : Option DetailsIn) (f : DetailsIn → Option (List String)) : List String :=
  match o with
  | some d => (f d).getD []
  | none => []

/-- The facility mapping of formattedStages. -/
def formatFacilityIn (f : FacilityIn) : StoredFacility :=
  { index := f.index.getD 0
    name := f.name.getD ""
    distance := f.distance.getD ""
    services := f.services.getD [] }

/-- The accommodation mapping of formattedStages. -/
def formatAccommodationIn (a : AccommodationIn) : StoredAccommodation :=
  { name := a.name.getD ""
    priceCategory := a.price_category.getD ""
    contactUrl := a.contact_url
    contactPhone := a.contact_phone
    lat := a.lat
    long := a.long }

/-- One stage of formattedStages: every missing field is defaulted
(numbers to 0, strings to the empty string, sequences to the empty
list). -/
def formatStageIn (s : StageIn) : StoredStage :=
  { stageNumber := s.stage_number.getD 0
    stageName := s.stage_name.getD ""
    distanceKm := s.distance_km.getD 0
    distanceMiles := s.distance_miles.getD 0
    gpx := s.gpx.getD ""
    details :=
      { totalDistance := dget s.details (fun d => d.total_distance)
        totalTime := dget s.details (fun d => d.total_time)
        accumulatedAscent := dget s.details (fun d => d.accumulated_ascent)
        accumulatedDescent := dget s.details (fun d => d.accumulated_descent)
        walkingSurface := dgetL s.details (fun d => d.walking_surface)
        elevationProfile := dget s.details (fun d => d.elevation_profile)
        challenges := dgetL s.details (fun d => d.challenges)
        highlights := dgetL s.details (fun d => d.highlights) }
    facilities := s.facilities.map formatFacilityIn
    accommodations := s.accommodations.map formatAccommodationIn }

/-- Responses of the two handlers, reduced to what the claims observe. -/
inductive ApiResponse where
  | putOk (r : StoredRoute)
  | postOk (r : StoredRoute)
  | notFound
  | notFoundAfterUpdate
  | serverError

/-- The record updateMany writes for every match of the PUT handler:
routeId becomes nextRouteId, routeName defaults to the empty string, and
the three sequences are wholesale set from the payload. -/
def putRecord (nextRouteId : String) (inc : IncomingRoute) : StoredRoute :=
  { routeId := nextRouteId
    routeName := inc.route_name.getD ""
    avgDailyDistance := inc.avg_daily_distance
    startingPoint := inc.starting_point
    stages := inc.stages.map formatStageIn }

/-- The PUT handler over the store: updateMany on routeId = pathId with
the full data object, 404 when nothing matched, then findFirst on the new
routeId for the response. -/
def putHandler (store : RouteStore) (pathId : String) (inc : IncomingRoute) :
    RouteStore × ApiResponse :=
  let nextRouteId := inc.route_id.getD pathId
  let matched := store.countP (fun r => r.routeId == pathId)
  let newStore := store.map (fun r =>
    if r.routeId == pathId then putRecord nextRouteId inc else r)
  let response :=
    if matched = 0 then ApiResponse.notFound
    else
      match newStore.find? (fun r => r.routeId == nextRouteId) with
      | some r => ApiResponse.putOk r
      | none => ApiResponse.notFoundAfterUpdate
  (newStore, response)

/-- The POST handler over the store: prisma.route.create appends the new
record unconditionally; routeId and routeName default to the empty
string.  There is no validation step and no error outcome. -/
def postHandler (store : RouteStore) (inc : IncomingRoute) :
    RouteStore × ApiResponse :=
  let newRoute :=
    { routeId := inc.route_id.getD ""
      routeName := inc.route_name.getD ""
      avgDailyDistance := inc.avg_daily_distance
      startingPoint := inc.starting_point
      stages := inc.stages.map formatStageIn : StoredRoute }
  (store ++ [newRoute], ApiResponse.postOk newRoute)

/-! ### The envelope boundary

Both handlers start with
incomingRoute := Array.isArray(body.routes) ? body.routes[0] : body. -/

/-- Selection of the incoming route value from the request body. -/
def extractIncoming (body : JVal) : JVal :=
  match body with
  | JVal.obj fs =>
      match jGet fs "routes" with
      | JVal.arr xs => xs.headD JVal.undef
      | _ => body
  | _ => body

/-- Whether the body carries the list envelope. -/
def isEnvelope (body : JVal) : Bool :=
  match body with
  | JVal.obj fs =>
      match jGet fs "routes" with
      | JVal.arr _ => true
      | _ => false
  | _ => false

/-! ### Decoding a body value into the typed incoming route

The handlers read the selected incoming value with plain property
accesses.  Property access on null or undefined throws, which the
surrounding try/catch turns into the 500 response with the store
untouched; on any other non-object value every access yields undefined,
so the handlers see a fully-defaulted route.  A some result is the typed
view of the accesses; none marks the nullish crash.  Values that the
handlers would pass through untyped (for example a truthy non-array in a
sequence position) are outside the typed domain and are not modelled. -/

/-- A present-or-nullish string field. -/
def decOptStr (v : JVal) : Option (Option String) :=
  match v with
  | JVal.str s => some (some s)
  | JVal.null => some none
  | JVal.undef => some none
  | _ => none

/-- A present-or-nullish number field. -/
def decOptNum (v : JVal) : Option (Option ℚ) :=
  match v with
  | JVal.num q => some (some q)
  | JVal.null => some none
  | JVal.undef => some none
  | _ => none

/-- A present-or-nullish array-of-strings field. -/
def decOptStrList (v : JVal) : Option (Option (List String)) :=
  match v with
  | JVal.arr xs => (xs.mapM isStr).map some
  | JVal.null => some none
  | JVal.undef => some none
  | _ => none

/-- The details member of a stage. -/
def decDetails (v : JVal) : Option (Option DetailsIn) :=
  match v with
  | JVal.null => some none
  | JVal.undef => some none
  | JVal.obj fs =>
      (decOptStrList (jGet fs "walking_surface")).bind (fun ws =>
        (decOptStrList (jGet fs "challenges")).bind (fun ch =>
          (decOptStrList (jGet fs "highlights")).map (fun hl =>
            some
              { total_distance := jGet fs "total_distance"
                total_time := jGet fs "total_time"
                accumulated_ascent := jGet fs "accumulated_ascent"
                accumulated_descent := jGet fs "accumulated_descent"
                walking_surface := ws
                elevation_profile := jGet fs "elevation_profile"
                challenges := ch
                highlights := hl })))
  | _ => none

/-- One facility of a stage. -/
def decFacility (v : JVal) : Option FacilityIn :=
  match v with
  | JVal.obj fs =>
      (decOptNum (jGet fs "index")).bind (fun ix =>
        (decOptStr (jGet fs "name")).bind (fun nm =>
          (decOptStr (jGet fs "distance")).bind (fun ds =>
            (decOptStrList (jGet fs "services")).map (fun sv =>
              { index := ix, name := nm, distance := ds, services := sv }))))
  | _ => none

/-- One accommodation of a stage. -/
def decAccommodation (v : JVal) : Option AccommodationIn :=
  match v with
  | JVal.obj fs =>
      (decOptStr (jGet fs "name")).bind (fun nm =>
        (decOptStr (jGet fs "price_category")).bind (fun pc =>
          (decOptStr (jGet fs "contact_url")).bind (fun cu =>
            (decOptStr (jGet fs "contact_phone")).bind (fun cp =>
              (decOptNum (jGet fs "lat")).bind (fun la =>
                (decOptNum (jGet fs "long")).map (fun lo =>
                  { name := nm, price_category := pc, contact_url := cu
                    contact_phone := cp, lat := la, long := lo }))))))
  | _ => none

/-- A sequence field read through the or-empty-list default. -/
def decListOr {α : Type} (f : JVal → Option α) (v : JVal) : Option (List α) :=
  match v with
  | JVal.arr xs => xs.mapM f
  | JVal.null => some []
  | JVal.undef => some []
  | _ => none

/-- One stage of the payload. -/
def decStage (v : JVal) : Option StageIn :=
  match v with
  | JVal.obj fs =>
      (decOptNum (jGet fs "stage_number")).bind (fun sn =>
        (decOptStr (jGet fs "stage_name")).bind (fun nm =>
          (decOptNum (jGet fs "distance_km")).bind (fun dk =>
            (decOptNum (jGet fs "distance_miles")).bind (fun dm =>
              (decOptStr (jGet fs "gpx")).bind (fun gp =>
                (decDetails (jGet fs "details")).bind (fun dt =>
                  (decListOr decFacility (jGet fs "facilities")).bind (fun fc =>
                    (decListOr decAccommodation (jGet fs "accommodations")).map (fun ac =>
                      { stage_number := sn, stage_name := nm, distance_km := dk
                        distance_miles := dm, gpx := gp, details := dt
                        facilities := fc, accommodations := ac }))))))))
  | _ => none

/-- A verbatim route-level sequence read through the or-empty-list
default. -/
def decRawList (v : JVal) : Option (List JVal) :=
  match v with
  | JVal.arr xs => some xs
  | JVal.null => some []
  | JVal.undef => some []
  | _ => none

/-- The typed view of the selected incoming value.  null and undefined
crash; any other non-object reads as the fully-defaulted route. -/
def decodeIncomingRoute (v : JVal) : Option IncomingRoute :=
  match v with
  | JVal.null => none
  | JVal.undef => none
  | JVal.obj fs =>
      (decOptStr (jGet fs "route_id")).bind (fun rid =>
        (decOptStr (jGet fs "route_name")).bind (fun rnm =>
          (decListOr decStage (jGet fs "stages")).bind (fun sts =>
            (decRawList (jGet fs "avg_daily_distance")).bind (fun av =>
              (decRawList (jGet fs "starting_point")).map (fun sp =>
                { route_id := rid, route_name := rnm, stages := sts
                  avg_daily_distance := av, starting_point := sp })))))
  | _ =>
      some { route_id := none, route_name := none, stages := []
             avg_daily_distance := [], starting_point := [] }

/-- The PUT handler from the request body: envelope selection, typed
decode, then the store update; a nullish selected value crashes into the
500 response with the store untouched. -/
def putHandlerJ (store : RouteStore) (pathId : String) (body : JVal) :
    RouteStore × ApiResponse :=
  match decodeIncomingRoute (extractIncoming body) with
  | some inc => putHandler store pathId inc
  | none => (store, ApiResponse.serverError)

/-- The POST handler from the request body. -/
def postHandlerJ (store : RouteStore) (body : JVal) :
    RouteStore × ApiResponse :=
  match decodeIncomingRoute (extractIncoming body) with
  | some inc => postHandler store inc
  | none => (store, ApiResponse.serverError)

/-! ## Helper lemmas -/

/-- Taking the character list commutes with string append. -/
theorem string_toList_append (a b : String) :
    (a ++ b).toList = a.toList ++ b.toList := rfl

/-- The dynamic key always starts with the dynamic prefix. -/
theorem dynKey_startsWith (n : Nat) :
    strStartsWith (dynKey n) "avg_daily_distance_" = true := by
  simp only [strStartsWith, dynKey, List.isPrefixOf_iff_prefix]
  rw [string_toList_append]
  exact List.prefix_append _ _

/-- A key that does not start with the dynamic prefix is no dynamic
key. -/
theorem dynKey_ne (k : String) (n : Nat)
    (h : strStartsWith k "avg_daily_distance_" = false) : dynKey n ≠ k := by
  intro he
  rw [← he, dynKey_startsWith] at h
  simp at h

/-- nonEmptyStr through the string test. -/
theorem nonEmptyStr_isStr (v : JVal) :
    nonEmptyStr v = (isStr v).bind (fun s => if s = "" then none else some s) := by
  cases v <;> rfl

/-- C1 check helper: the source label resolution agrees with the
specification-side restatement. -/
theorem resolveLabel_eq_spec (r : JRecord) : resolveLabel r = specResolveLabel r := by
  unfold resolveLabel specResolveLabel
  simp only [nonEmptyStr_isStr]
  cases hd : isStr (jGet r "label") with
  | none =>
      cases hr : isStr (jGet r "range_value") with
      | none =>
          cases hk : (r.map Prod.fst).find? (fun k => strStartsWith k "avg_daily_distance_") with
          | none => simp [jsOrS, Option.orElse]
          | some k =>
              cases hv : isStr (jGet r k) with
              | none => simp [jsOrS, Option.orElse, hv]
              | some s =>
                  by_cases hs : s = "" <;> simp [jsOrS, Option.orElse, hv, hs]
      | some s =>
          by_cases hs : s = "" <;>
            cases hk : (r.map Prod.fst).find? (fun k => strStartsWith k "avg_daily_distance_") with
          | none => simp [jsOrS, Option.orElse, hs]
          | some k =>
              cases hv : isStr (jGet r k) with
              | none => simp [jsOrS, Option.orElse, hv, hs]
              | some s2 =>
                  by_cases hs2 : s2 = "" <;> simp [jsOrS, Option.orElse, hv, hs, hs2]
  | some s =>
      by_cases hs : s = "" <;>
        cases hr : isStr (jGet r "range_value") with
      | none =>
          cases hk : (r.map Prod.fst).find? (fun k => strStartsWith k "avg_daily_distance_") with
          | none => simp [jsOrS, Option.orElse, hs]
          | some k =>
              cases hv : isStr (jGet r k) with
              | none => simp [jsOrS, Option.orElse, hv, hs]
              | some s2 =>
                  by_cases hs2 : s2 = "" <;> simp [jsOrS, Option.orElse, hv, hs, hs2]
      | some s2 =>
          by_cases hs2 : s2 = "" <;>
            cases hk : (r.map Prod.fst).find? (fun k => strStartsWith k "avg_daily_distance_") with
          | none => simp [jsOrS, Option.orElse, hs, hs2]
          | some k =>
              cases hv : isStr (jGet r k) with
              | none => simp [jsOrS, Option.orElse, hv, hs, hs2]
              | some s3 =>
                  by_cases hs3 : s3 = "" <;> simp [jsOrS, Option.orElse, hv, hs, hs2, hs3]

/-! ## Claim theorems -/

/-- C1 counterexample.  The claim states that whenever the label field is
a string the resolved label is that value, that a string value under some
key of the form avg_daily_distance_(positive integer) is used as the
fallback, and that records without such fields resolve to the empty
string.  The code disagrees: an empty-string label falls through to
range_value; only the first key starting with avg_daily_distance_ is
consulted, so a non-string value there hides a later string value; and a
key with a non-integer suffix such as avg_daily_distance_x is accepted. -/
theorem c1_counterexample :
    (isStr (jGet [("label", JVal.str ""), ("range_value", JVal.str "B")] "label") = some "" ∧
      resolveLabel [("label", JVal.str ""), ("range_value", JVal.str "B")] = "B" ∧
      ("B" : String) ≠ "") ∧
    (isStr (jGet [("avg_daily_distance_1", JVal.num 5), ("avg_daily_distance_2", JVal.str "C")]
        "avg_daily_distance_2") = some "C" ∧
      resolveLabel [("avg_daily_distance_1", JVal.num 5), ("avg_daily_distance_2", JVal.str "C")] = "") ∧
    (resolveLabel [("avg_daily_distance_x", JVal.str "C")] = "C" ∧
      ("C" : String) ≠ "") :=
  ⟨⟨rfl, rfl, by decide⟩, ⟨rfl, rfl⟩, ⟨rfl, by decide⟩⟩

/-- C1 (amended).  Inbound normalization resolves the canonical label as
the first non-empty string among: the label field, the range_value field,
and the value of the first key (in object key order) starting with
avg_daily_distance_; otherwise the empty string.  The four examples of
the claim hold as stated. -/
theorem c1_label_priority :
    (∀ r : JRecord, resolveLabel r = specResolveLabel r) ∧
    resolveLabel [("label", JVal.str "A"), ("range_value", JVal.str "B"),
      ("avg_daily_distance_1", JVal.str "C")] = "A" ∧
    resolveLabel [("range_value", JVal.str "B"), ("avg_daily_distance_1", JVal.str "C")] = "B" ∧
    resolveLabel [("avg_daily_distance_1", JVal.str "C")] = "C" ∧
    resolveLabel [("minimum_km", JVal.num 10), ("days", JVal.num 3)] = "" :=
  ⟨resolveLabel_eq_spec, rfl, rfl, rfl, rfl⟩

/-- Position-indexed access into the outbound transform. -/
theorem transformedAvgDailyAux_getElem? (items : List JRecord) (k i : Nat) :
    (transformedAvgDailyAux k items)[i]? =
      (items[i]?).map (fun it => transformEntry (k + i) it) := by
  induction items generalizing k i with
  | nil => simp [transformedAvgDailyAux]
  | cons a t ih =>
      cases i with
      | zero => simp [transformedAvgDailyAux]
      | succ n =>
          simp only [transformedAvgDailyAux, List.getElem?_cons_succ]
          rw [ih (k + 1) n]
          have hkn : k + 1 + n = k + (n + 1) := by omega
          rw [hkn]

/-- C2.  The i-th output entry of the outbound transform carries its
label value under the positional key avg_daily_distance_(i+1) as its
first field, contains no range_value key and no other key starting with
avg_daily_distance_, and for a form-canonical entry (range_value a
non-empty string) the emitted value is exactly that canonical label. -/
theorem c2_positional_rekeying (items : List JRecord) (i : Nat) (hi : i < items.length) :
    ∃ e, (transformedAvgDaily items)[i]? = some e ∧
      e.head? = some (dynKey (i + 1), denormValue i items[i]) ∧
      "range_value" ∉ e.map Prod.fst ∧
      (∀ k, k ∈ e.map Prod.fst → strStartsWith k "avg_daily_distance_" = true →
        k = dynKey (i + 1)) ∧
      (∀ s, s ≠ "" → (items[i]).lookup "range_value" = some (JVal.str s) →
        denormValue i items[i] = JVal.str s) := by
  refine ⟨transformEntry i items[i], ?_, rfl, ?_, ?_, ?_⟩
  · rw [transformedAvgDaily, transformedAvgDailyAux_getElem? items 0 i,
      List.getElem?_eq_getElem hi]
    simp
  · simp only [transformEntry, List.map_cons, List.mem_cons, List.mem_map]
    rintro (h | ⟨kv, hkv, h1⟩)
    · exact dynKey_ne "range_value" (i + 1) (by decide) h.symm
    · rcases List.mem_filter.mp hkv with ⟨-, hp⟩
      rcases Bool.and_eq_true_iff.mp hp with ⟨-, hpb⟩
      exact bne_iff_ne.mp hpb h1
  · intro k hk hks
    simp only [transformEntry, List.map_cons, List.mem_cons, List.mem_map] at hk
    rcases hk with h | ⟨kv, hkv, h1⟩
    · exact h
    · rcases List.mem_filter.mp hkv with ⟨-, hp⟩
      rcases Bool.and_eq_true_iff.mp hp with ⟨hpa, -⟩
      have hfalse : strStartsWith kv.1 "avg_daily_distance_" = false := by
        simpa using hpa
      rw [← h1] at hks
      rw [hks] at hfalse
      simp at hfalse
  · intro s hs hlook
    simp [denormValue, jGet, hlook, jsOrV, jsTruthy, hs]

/-- A three-entry form-canonical distance-band sequence. -/
def demoBands : List JRecord :=
  [[("range_value", JVal.str "A")],
   [("range_value", JVal.str "B")],
   [("range_value", JVal.str "C")]]

/-- C2 witness: the theorem instantiated at the third entry of a concrete
three-entry sequence. -/
theorem c2_positional_rekeying_witness :
    ∃ e, (transformedAvgDaily demoBands)[2]? = some e ∧
      e.head? = some (dynKey 3, denormValue 2 [("range_value", JVal.str "C")]) ∧
      "range_value" ∉ e.map Prod.fst ∧
      (∀ k, k ∈ e.map Prod.fst → strStartsWith k "avg_daily_distance_" = true →
        k = dynKey 3) ∧
      (∀ s, s ≠ "" →
        ([("range_value", JVal.str "C")] : JRecord).lookup "range_value" = some (JVal.str s) →
        denormValue 2 [("range_value", JVal.str "C")] = JVal.str s) := by
  have h := c2_positional_rekeying demoBands 2 (by decide)
  simpa [demoBands] using h

/-- A canonical record has no dynamic key. -/
theorem canonRecord_lookup_dynKey (e : CanonEntry) (n : Nat) :
    (canonRecord e).lookup (dynKey n) = none := by
  have h1 : (dynKey n == "label") = false :=
    beq_eq_false_iff_ne.mpr (dynKey_ne "label" n (by decide))
  have h2 : (dynKey n == "minimum_km") = false :=
    beq_eq_false_iff_ne.mpr (dynKey_ne "minimum_km" n (by decide))
  have h3 : (dynKey n == "minimum_mile") = false :=
    beq_eq_false_iff_ne.mpr (dynKey_ne "minimum_mile" n (by decide))
  have h4 : (dynKey n == "maximum_km") = false :=
    beq_eq_false_iff_ne.mpr (dynKey_ne "maximum_km" n (by decide))
  have h5 : (dynKey n == "maximum_mile") = false :=
    beq_eq_false_iff_ne.mpr (dynKey_ne "maximum_mile" n (by decide))
  have h6 : (dynKey n == "days") = false :=
    beq_eq_false_iff_ne.mpr (dynKey_ne "days" n (by decide))
  simp [canonRecord, List.lookup, h1, h2, h3, h4, h5, h6]

/-- Denormalizing a canonical record prepends the positional key with the
empty-string value and keeps every canonical field. -/
theorem transformEntry_canon (e : CanonEntry) (idx : Nat) :
    transformEntry idx (canonRecord e) =
      (dynKey (idx + 1), JVal.str "") :: canonRecord e := by
  have hdk : jGet (canonRecord e) (dynKey (idx + 1)) = JVal.undef := by
    simp [jGet, canonRecord_lookup_dynKey]
  have hd : denormValue idx (canonRecord e) = JVal.str "" := by
    rw [denormValue, hdk]
    rfl
  have hf : (canonRecord e).filter (fun kv =>
      !(strStartsWith kv.1 "avg_daily_distance_") && kv.1 != "range_value") =
      canonRecord e := rfl
  unfold transformEntry
  rw [hd, hf]

/-- Label resolution on a canonical record. -/
theorem resolveLabel_canon (e : CanonEntry) :
    resolveLabel (canonRecord e) = e.label := by
  have h0 : resolveLabel (canonRecord e) =
      ((if e.label = "" then (none : Option String) else some e.label)).getD "" := rfl
  rw [h0]
  by_cases h : e.label = "" <;> simp [h]

/-- C3.  Normalization is a no-op on an already-canonical entry, and
normalizing a denormalized canonical entry (at any sequence position)
reproduces the same canonical label. -/
theorem c3_idempotence (e : CanonEntry) (idx : Nat) :
    normalizeEntry (canonRecord e) = canonRecord e ∧
    jGet (normalizeEntry (transformEntry idx (canonRecord e))) "label" =
      JVal.str e.label := by
  constructor
  · unfold normalizeEntry
    rw [resolveLabel_canon]
    rfl
  · rw [transformEntry_canon]
    have hlk : ("label" == dynKey (idx + 1)) = false :=
      beq_eq_false_iff_ne.mpr (Ne.symm (dynKey_ne "label" (idx + 1) (by decide)))
    have hrk : ("range_value" == dynKey (idx + 1)) = false :=
      beq_eq_false_iff_ne.mpr (Ne.symm (dynKey_ne "range_value" (idx + 1) (by decide)))
    have hjl : jGet ((dynKey (idx + 1), JVal.str "") :: canonRecord e) "label" =
        JVal.str e.label := by
      simp only [jGet, List.lookup, hlk]
      rfl
    have hjr : jGet ((dynKey (idx + 1), JVal.str "") :: canonRecord e) "range_value" =
        JVal.undef := by
      simp only [jGet, List.lookup, hrk]
      rfl
    have hjd : jGet ((dynKey (idx + 1), JVal.str "") :: canonRecord e) (dynKey (idx + 1)) =
        JVal.str "" := by
      simp [jGet, List.lookup]
    have hfind : ((((dynKey (idx + 1), JVal.str "") :: canonRecord e)).map Prod.fst).find?
        (fun k => strStartsWith k "avg_daily_distance_") = some (dynKey (idx + 1)) := by
      simp only [List.map_cons]
      exact List.find?_cons_of_pos _ (dynKey_startsWith (idx + 1))
    have hj : jGet (normalizeEntry ((dynKey (idx + 1), JVal.str "") :: canonRecord e)) "label" =
        JVal.str (resolveLabel ((dynKey (idx + 1), JVal.str "") :: canonRecord e)) := rfl
    rw [hj]
    unfold resolveLabel
    simp only [hjl, hjr, hfind]
    by_cases h : e.label = "" <;> simp [isStr, jsOrS, hjd, h]

/-- C4.  The schema validator rejects the route with an empty route_id
with a field error on the route_id path, rejects a stage whose
stage_number is 0 with a field error on that stage_number path, and
rejects a stage missing its details field with a field error on that
details path; none of the three validates. -/
theorem c4_validation_rejects :
    validateRoute routeEmptyIdDoc =
      Except.error [⟨[PathItem.key "route_id"], "Route ID is required"⟩] ∧
    validateRoute (routeDocWith (stageDoc (JVal.num 0) (JVal.num 1))) =
      Except.error
        [⟨[PathItem.key "stages", PathItem.idx 0, PathItem.key "stage_number"], "Too small"⟩] ∧
    validateRoute (routeDocWith stageNoDetails) =
      Except.error
        [⟨[PathItem.key "stages", PathItem.idx 0, PathItem.key "details"], "Required"⟩] :=
  ⟨rfl, rfl, rfl⟩

/-- The shape validateRoute takes on the one-stage document, as a
function of the two coerced numeric fields. -/
def c5StageShape (rn rd : Vres ℚ) : Vres RouteFormValues :=
  vseq (vseq (vseq (vseq (vseq (Except.ok RouteFormValues.mk)
    (Except.ok "r1")) (Except.ok "R")) (Except.ok none)) (Except.ok none))
    (vseq (vseq (Except.ok List.cons)
      (vseq (vseq (vseq (vseq (vseq (vseq (vseq (vseq (Except.ok StageForm.mk) rn)
        (Except.ok "S")) rd) (Except.ok 0)) (Except.ok none))
        (Except.ok ⟨"", "", "", "", [], "", [], []⟩))
        (Except.ok [])) (Except.ok [])))
      (Except.ok []))

/-- Evaluation of the validator on the one-stage document, leaving the
two coerced fields symbolic. -/
theorem validateRoute_stageDoc (n d : JVal) :
    validateRoute (routeDocWith (stageDoc n d)) =
      c5StageShape
        (vNumMin [PathItem.key "stages", PathItem.idx 0, PathItem.key "stage_number"] 1 n)
        (vNum [PathItem.key "stages", PathItem.idx 0, PathItem.key "distance_km"] d) := rfl

/-- C5.  A distance_km given as the numeric-looking string 12.5 validates
to the number 12.5; in general the validator coerces exactly the strings
the Number() model accepts, and rejects a non-numeric-looking string with
a field error on the distance_km path. -/
theorem c5_numeric_coercion :
    ((validateRoute (routeDocWith (stageDoc (JVal.num 1) (JVal.str "12.5")))).map
      (fun r => r.stages.map (fun st => st.distance_km)) = Except.ok [mkRat 25 2]) ∧
    (∀ s q, jsNumber s = some q →
      (validateRoute (routeDocWith (stageDoc (JVal.num 1) (JVal.str s)))).map
        (fun r => r.stages.map (fun st => st.distance_km)) = Except.ok [q]) ∧
    (∀ s, jsNumber s = none →
      validateRoute (routeDocWith (stageDoc (JVal.num 1) (JVal.str s))) =
        Except.error
          [⟨[PathItem.key "stages", PathItem.idx 0, PathItem.key "distance_km"],
            "Expected number, received nan"⟩]) := by
  refine ⟨rfl, ?_, ?_⟩
  · intro s q h
    rw [validateRoute_stageDoc]
    simp [c5StageShape, vNum, vNumMin, coerceNumber, vseq, h, Except.map]
  · intro s h
    rw [validateRoute_stageDoc]
    simp [c5StageShape, vNum, vNumMin, coerceNumber, vseq, h, Except.map]

/-- C5 witness: the universal parts instantiated at the numeric-looking
string 3.5 and the non-numeric-looking string abc. -/
theorem c5_numeric_coercion_witness :
    ((validateRoute (routeDocWith (stageDoc (JVal.num 1) (JVal.str "3.5")))).map
      (fun r => r.stages.map (fun st => st.distance_km)) = Except.ok [mkRat 7 2]) ∧
    (validateRoute (routeDocWith (stageDoc (JVal.num 1) (JVal.str "abc"))) =
      Except.error
        [⟨[PathItem.key "stages", PathItem.idx 0, PathItem.key "distance_km"],
          "Expected number, received nan"⟩]) :=
  ⟨(c5_numeric_coercion.2.1 "3.5" (mkRat 7 2) rfl),
   (c5_numeric_coercion.2.2 "abc" rfl)⟩

/-- C6.  The update is a full replacement: every stored route matching the
path identifier ends up with exactly the stages, avg_daily_distance and
starting_point of the payload, with no merge of prior contents. -/
theorem c6_full_replace (store : RouteStore) (pathId : String) (inc : IncomingRoute)
    (i : Nat) (hi : i < store.length) (hm : store[i].routeId = pathId) :
    ∃ u, ((putHandler store pathId inc).1)[i]? = some u ∧
      u.stages = inc.stages.map formatStageIn ∧
      u.stages.length = inc.stages.length ∧
      u.avgDailyDistance = inc.avg_daily_distance ∧
      u.startingPoint = inc.starting_point := by
  refine ⟨putRecord (inc.route_id.getD pathId) inc, ?_, rfl, by simp [putRecord], rfl, rfl⟩
  show (store.map fun r =>
      if r.routeId == pathId then putRecord (inc.route_id.getD pathId) inc else r)[i]? = _
  rw [List.getElem?_map, List.getElem?_eq_getElem hi]
  simp [hm]

/-- A fully-defaulted incoming stage. -/
def sampleStageIn : StageIn :=
  { stage_number := none, stage_name := none, distance_km := none,
    distance_miles := none, gpx := none, details := none,
    facilities := [], accommodations := [] }

/-- The stored form of the defaulted stage. -/
def sampleStoredStage : StoredStage := formatStageIn sampleStageIn

/-- C6 witness: a stored route with three stages updated by a one-stage
payload keeps exactly one stage. -/
theorem c6_full_replace_witness :
    ∃ u, ((putHandler
        [{ routeId := "r1", routeName := "R", avgDailyDistance := [], startingPoint := [],
           stages := [sampleStoredStage, sampleStoredStage, sampleStoredStage] }] "r1"
        { route_id := some "r1", route_name := some "R", stages := [sampleStageIn],
          avg_daily_distance := [], starting_point := [] }).1)[0]? = some u ∧
      u.stages = [sampleStageIn].map formatStageIn ∧
      u.stages.length = 1 ∧
      u.avgDailyDistance = ([] : List JVal) ∧
      u.startingPoint = ([] : List JVal) :=
  c6_full_replace _ "r1" _ 0 (by decide) rfl

/-- C7.  Updating an identifier that matches no stored route answers
not-found and leaves the store unchanged: no record is created. -/
theorem c7_not_found (store : RouteStore) (pathId : String) (inc : IncomingRoute)
    (h : ∀ r ∈ store, r.routeId ≠ pathId) :
    putHandler store pathId inc = (store, ApiResponse.notFound) := by
  have hc : store.countP (fun r => r.routeId == pathId) = 0 :=
    List.countP_eq_zero.mpr (fun r hr => by simpa using h r hr)
  have hm : (store.map fun r =>
      if r.routeId = pathId then putRecord (inc.route_id.getD pathId) inc else r) = store := by
    conv_rhs => rw [← List.map_id store]
    refine List.map_congr_left (fun r hr => ?_)
    simp [h r hr]
  unfold putHandler
  simp [hc, hm]

/-- C7 witness: updating the identifier nonexistent against a one-route
store keeps the store and answers not-found. -/
theorem c7_not_found_witness :
    putHandler
        [{ routeId := "r1", routeName := "R", avgDailyDistance := [], startingPoint := [],
           stages := [] }] "nonexistent"
        { route_id := none, route_name := none, stages := [],
          avg_daily_distance := [], starting_point := [] } =
      ([{ routeId := "r1", routeName := "R", avgDailyDistance := [], startingPoint := [],
          stages := [] }], ApiResponse.notFound) :=
  c7_not_found _ "nonexistent" _ (by intro r hr; simp at hr; simp [hr])

/-- C10.  A successful update stores the payload route_id when one is
present (the path identifier only locates the record); the path
identifier is kept only when the payload has no route_id. -/
theorem c10_identity_change (store : RouteStore) (pathId : String) (inc : IncomingRoute)
    (i : Nat) (hi : i < store.length) (hm : store[i].routeId = pathId) :
    ∃ u, ((putHandler store pathId inc).1)[i]? = some u ∧
      u.routeId = inc.route_id.getD pathId ∧
      (∀ y, inc.route_id = some y → u.routeId = y) ∧
      (inc.route_id = none → u.routeId = pathId) := by
  refine ⟨putRecord (inc.route_id.getD pathId) inc, ?_, rfl, ?_, ?_⟩
  · show (store.map fun r =>
        if r.routeId == pathId then putRecord (inc.route_id.getD pathId) inc else r)[i]? = _
    rw [List.getElem?_map, List.getElem?_eq_getElem hi]
    simp [hm]
  · intro y hy
    simp [putRecord, hy]
  · intro hn
    simp [putRecord, hn]

/-- C10 witness: updating the route stored under identifier a with a
payload carrying route_id b stores identifier b. -/
theorem c10_identity_change_witness :
    ∃ u, ((putHandler
        [{ routeId := "a", routeName := "R", avgDailyDistance := [], startingPoint := [],
           stages := [] }] "a"
        { route_id := some "b", route_name := some "R", stages := [],
          avg_daily_distance := [], starting_point := [] }).1)[0]? = some u ∧
      u.routeId = (some "b").getD "a" ∧
      (∀ y, (some "b" : Option String) = some y → u.routeId = y) ∧
      ((some "b" : Option String) = none → u.routeId = "a") :=
  c10_identity_change _ "a" _ 0 (by decide) rfl

/-- C9 counterexample.  A body of JSON null (and an envelope with an empty
routes array) is syntactically parsed, yet the create operation crashes
into the 500 response and creates no record, so creation is not
unconditional over all parsed bodies. -/
theorem c9_counterexample :
    postHandlerJ [] JVal.null = ([], ApiResponse.serverError) ∧
    postHandlerJ [] (JVal.obj [("routes", JVal.arr [])]) = ([], ApiResponse.serverError) :=
  ⟨rfl, rfl⟩

/-- C9 (amended).  For every payload in the typed incoming-route domain
(the selected route value is an object), the create operation performs no
validation and appends a record unconditionally, defaulting route_id and
route_name to the empty string and every stage field through
formatStageIn; a nullish selected route instead yields the 500 response
with no record. -/
theorem c9_create_unconditional (store : RouteStore) (inc : IncomingRoute) :
    ∃ r, postHandler store inc = (store ++ [r], ApiResponse.postOk r) ∧
      r.routeId = inc.route_id.getD "" ∧
      r.routeName = inc.route_name.getD "" ∧
      r.stages = inc.stages.map formatStageIn ∧
      (inc.route_id = none → r.routeId = "") :=
  ⟨_, rfl, rfl, rfl, rfl, fun hn => by simp [hn]⟩

/-- C8.  Both single-route operations accept the bare route object or the
routes-list envelope; under the envelope only the first element is
selected, and the elements after it have no effect on the result. -/
theorem c8_envelope (store : RouteStore) (pathId : String) (fs : JRecord)
    (x : JVal) (rest : List JVal) (b : JVal)
    (henv : jGet fs "routes" = JVal.arr (x :: rest))
    (hbare : isEnvelope b = false) :
    extractIncoming (JVal.obj fs) = x ∧
    extractIncoming b = b ∧
    putHandlerJ store pathId (JVal.obj fs) =
      putHandlerJ store pathId (JVal.obj [("routes", JVal.arr [x])]) ∧
    postHandlerJ store (JVal.obj fs) =
      postHandlerJ store (JVal.obj [("routes", JVal.arr [x])]) := by
  have hex : extractIncoming (JVal.obj fs) = x := by
    simp [extractIncoming, henv]
  have hex2 : extractIncoming (JVal.obj [("routes", JVal.arr [x])]) = x := rfl
  refine ⟨hex, ?_, ?_, ?_⟩
  · cases b with
    | obj fs2 =>
        simp only [isEnvelope] at hbare
        cases hr : jGet fs2 "routes" <;> simp_all [extractIncoming]
    | null => rfl
    | undef => rfl
    | bool bb => rfl
    | num q => rfl
    | str s => rfl
    | arr xs => rfl
  · simp only [putHandlerJ]
    rw [hex, hex2]
  · simp only [postHandlerJ]
    rw [hex, hex2]

/-- C8 witness: an envelope with two elements behaves as the one holding
only its first element, and a bare non-envelope body is taken as the
route itself. -/
theorem c8_envelope_witness :
    extractIncoming (JVal.obj [("routes", JVal.arr [JVal.num 1, JVal.num 2])]) = JVal.num 1 ∧
    extractIncoming (JVal.num 7) = JVal.num 7 ∧
    putHandlerJ [] "p" (JVal.obj [("routes", JVal.arr [JVal.num 1, JVal.num 2])]) =
      putHandlerJ [] "p" (JVal.obj [("routes", JVal.arr [JVal.num 1])]) ∧
    postHandlerJ [] (JVal.obj [("routes", JVal.arr [JVal.num 1, JVal.num 2])]) =
      postHandlerJ [] (JVal.obj [("routes", JVal.arr [JVal.num 1])]) :=
  c8_envelope [] "p" [("routes", JVal.arr [JVal.num 1, JVal.num 2])]
    (JVal.num 1) [JVal.num 2] (JVal.num 7) rfl rfl

/-- C9 amended witness: the fully-defaulted payload appended to the empty
store, with an absent route_id stored as the empty string. -/
theorem c9_create_unconditional_witness :
    ∃ r, postHandler []
        { route_id := none, route_name := none, stages := [],
          avg_daily_distance := [], starting_point := [] } = ([] ++ [r], ApiResponse.postOk r) ∧
      r.routeId = (none : Option String).getD "" ∧
      r.routeName = (none : Option String).getD "" ∧
      r.stages = ([] : List StageIn).map formatStageIn ∧
      ((none : Option String) = none → r.routeId = "") :=
  c9_create_unconditional []
    { route_id := none, route_name := none, stages := [],
      avg_daily_distance := [], starting_point := [] }
